import Mathlib

/-!
Verification of the latency-server compilation-and-measurement pipeline.

This file gives a shallow embedding, in Lean 4, of the parts of the
`texas_instruments_latency_server` package that the verified properties talk
about:

* `TIOnnxruntimeModel.collect_ti_stats` and `TIOnnxruntimeModel.__init__`
  (file `ti_ort_model.py`);
* `DeviceLatencyServer.measure_latency` statistics assembly
  (file `device_server.py`);
* `generate_fake_calibration_data` (file `compiler/common.py`);
* `TICalibrationCfg` and the calibration-tier selection in
  `MainLatencyServer._compile_model` (files `compiler/config.py`,
  `main_server.py`);
* `TICompiler.compile` and `TICompiler._run_calibration`
  (file `compiler/compiler.py`), together with the process-isolation wrapper
  `MainLatencyServer._run_isolated_compilation` (file `main_server.py`).

Numeric counter values are embedded as rationals (the Python values are
integer nanosecond counters and floats obtained from them by exact division
by `10 ^ 6`); file systems are embedded as explicit lists of relative paths;
side-effecting control flow is embedded as explicit event traces.
-/

namespace TexasInstrumentsLatencyServer

/-! ### Raw hardware counters and statistics aggregation (`ti_ort_model.py`) -/

/-- A raw counter mapping, as returned by `ort_session.get_TI_benchmark_data()`
in `TIOnnxruntimeModel.collect_ti_stats`.  A Python `dict` iterated in
insertion order is embedded as an association list of key/value pairs. -/
structure RawStats where
  entries : List (String × ℚ)

/-- Dictionary access `raw_stats[k]`.  Keys that the aggregation reads are
always present in the real counter mapping (a missing key raises `KeyError`
in Python); the embedding totalizes the lookup with `0`. -/
def RawStats.lookup (rs : RawStats) (k : String) : ℚ :=
  match rs.entries.find? (fun kv => kv.1 == k) with
  | some kv => kv.2
  | none => 0

/-- `subgraph_ids = tuple(k[12:-11] for k in raw_stats if k.endswith("proc_start"))`
(line 87 of `ti_ort_model.py`): the per-subgraph ids are discovered
dynamically from the keys present in the raw mapping.  The Python slice
`k[12:-11]` strips the 12-character head `"ts:subgraph_"` and the
11-character tail `"_proc_start"`; both the slice and
`(k.drop 12).dropRight 11` clamp to the empty string on short keys. -/
def subgraph_ids (rs : RawStats) : List String :=
  rs.entries.filterMap (fun kv =>
    if kv.1.endsWith "proc_start" then some ((kv.1.drop 12).dropRight 11) else none)

/-- The three running accumulators mutated by the `for subgraph_id in
subgraph_ids` loop (lines 88–92 of `ti_ort_model.py`), all starting at `0.0`. -/
structure NPUAcc where
  npu_exec : ℚ
  npu_copy_in : ℚ
  npu_copy_out : ℚ

/-- One iteration of the per-subgraph accumulation loop of
`collect_ti_stats`. -/
def npu_step (rs : RawStats) (acc : NPUAcc) (subgraph_id : String) : NPUAcc :=
  { npu_exec := acc.npu_exec +
      (rs.lookup ("ts:subgraph_" ++ subgraph_id ++ "_proc_end")
        - rs.lookup ("ts:subgraph_" ++ subgraph_id ++ "_proc_start"))
  , npu_copy_in := acc.npu_copy_in +
      (rs.lookup ("ts:subgraph_" ++ subgraph_id ++ "_copy_in_end")
        - rs.lookup ("ts:subgraph_" ++ subgraph_id ++ "_copy_in_start"))
  , npu_copy_out := acc.npu_copy_out +
      (rs.lookup ("ts:subgraph_" ++ subgraph_id ++ "_copy_out_end")
        - rs.lookup ("ts:subgraph_" ++ subgraph_id ++ "_copy_out_start")) }

/-- The accumulated processing window of one subgraph id, before unit
conversion: `raw_stats[f"ts:subgraph_{id}_proc_end"] - raw_stats[f"ts:subgraph_{id}_proc_start"]`. -/
def proc_window (rs : RawStats) (subgraph_id : String) : ℚ :=
  rs.lookup ("ts:subgraph_" ++ subgraph_id ++ "_proc_end")
    - rs.lookup ("ts:subgraph_" ++ subgraph_id ++ "_proc_start")

/-- The input-copy window of one subgraph id, before unit conversion. -/
def copy_in_window (rs : RawStats) (subgraph_id : String) : ℚ :=
  rs.lookup ("ts:subgraph_" ++ subgraph_id ++ "_copy_in_end")
    - rs.lookup ("ts:subgraph_" ++ subgraph_id ++ "_copy_in_start")

/-- The output-copy window of one subgraph id, before unit conversion. -/
def copy_out_window (rs : RawStats) (subgraph_id : String) : ℚ :=
  rs.lookup ("ts:subgraph_" ++ subgraph_id ++ "_copy_out_end")
    - rs.lookup ("ts:subgraph_" ++ subgraph_id ++ "_copy_out_start")

/-- The statistics dictionary built by `collect_ti_stats`, with one field per
key of the returned Python `dict`. -/
structure TIStats where
  total_ms : ℚ
  ddr_read_ms : ℚ
  ddr_write_ms : ℚ
  NPU_execution_ms : ℚ
  NPU_copy_input_ms : ℚ
  NPU_copy_output_ms : ℚ
  total_execution_ms : ℚ
  CPU_execution_ms : ℚ

/-- `TIOnnxruntimeModel.collect_ti_stats` (lines 75–99 of `ti_ort_model.py`):
window deltas for the run and DDR counters, a loop accumulating the three NPU
values over the discovered subgraph ids, division of every accumulated value
by `10 ** 6`, and then the two derived entries `total_execution_ms` and
`CPU_execution_ms`. -/
def collect_ti_stats (rs : RawStats) : TIStats :=
  let total := rs.lookup "ts:run_end" - rs.lookup "ts:run_start"
  let ddr_read := rs.lookup "ddr:read_end" - rs.lookup "ddr:read_start"
  let ddr_write := rs.lookup "ddr:write_end" - rs.lookup "ddr:write_start"
  let acc := (subgraph_ids rs).foldl (npu_step rs) ⟨0, 0, 0⟩
  let total_ms := total / 10 ^ 6
  let npu_execution_ms := acc.npu_exec / 10 ^ 6
  let npu_copy_input_ms := acc.npu_copy_in / 10 ^ 6
  let npu_copy_output_ms := acc.npu_copy_out / 10 ^ 6
  let total_execution_ms := total_ms - npu_copy_input_ms - npu_copy_output_ms
  { total_ms := total_ms
  , ddr_read_ms := ddr_read / 10 ^ 6
  , ddr_write_ms := ddr_write / 10 ^ 6
  , NPU_execution_ms := npu_execution_ms
  , NPU_copy_input_ms := npu_copy_input_ms
  , NPU_copy_output_ms := npu_copy_output_ms
  , total_execution_ms := total_execution_ms
  , CPU_execution_ms := total_execution_ms - npu_execution_ms }

/-! ### Device-server report assembly (`device_server.py`) -/

/-- The mapping returned by `DeviceLatencyServer.measure_latency`: the
`collect_ti_stats` entries plus the two appended keys `latency` and
`ORT_overhead_ms`. -/
structure LatencyReport where
  stats : TIStats
  latency : ℚ
  ORT_overhead_ms : ℚ

/-- Lines 144–146 of `device_server.py`:
`stats = ti_model.collect_ti_stats(); stats["latency"] = latency;
stats["ORT_overhead_ms"] = latency - stats["total_ms"]`.
The wall-clock mean `latency` is a parameter here (it is produced by
`compute_model_latency`, which times real inference calls). -/
def measure_latency_report (rs : RawStats) (latency : ℚ) : LatencyReport :=
  let stats := collect_ti_stats rs
  { stats := stats
  , latency := latency
  , ORT_overhead_ms := latency - stats.total_ms }

/-! ### Synthetic calibration data (`compiler/common.py`) -/

/-- A numpy array as produced by `np.full`: declared shape, dtype code, and
the element data, every element being the fill value. -/
structure NpArray where
  shape : List Nat
  dtype : Nat
  data : List Int

/-- `np.full(fill_value=i, shape=shape, dtype=dtype)`: an array whose
`shape.prod` elements all equal `fill_value`. -/
def np_full (fill_value : Int) (shape : List Nat) (dtype : Nat) : NpArray :=
  { shape := shape, dtype := dtype, data := List.replicate shape.prod fill_value }

/-- One declared graph input of the ONNX model: its name, the `dim_value`s of
its declared shape, and its ONNX element-type code. -/
structure TensorInfo where
  name : String
  dims : List Nat
  elem_type : Nat

/-- `generate_fake_calibration_data` (lines 19–31 of `compiler/common.py`):
for `i in range(1, n_output_files + 1)` write the file
`fake_calibration_data_{i}.pickle` holding, for every declared graph input, an
array `np.full(fill_value=i, shape=declared shape, dtype=converted declared
element type)`.  The conversion `_onnx_dtype_to_np_dtype` is a table of the
external onnx library and is kept abstract as the parameter
`onnx_dtype_to_np_dtype`.  The result lists the written files in order as
(file name, pickled content) pairs. -/
def generate_fake_calibration_data (onnx_dtype_to_np_dtype : Nat → Nat)
    (graph_inputs : List TensorInfo) (n_output_files : Nat) :
    List (String × List (String × NpArray)) :=
  (List.range' 1 n_output_files).map (fun (i : Nat) =>
    ("fake_calibration_data_" ++ toString i ++ ".pickle",
      graph_inputs.map (fun gi =>
        (gi.name, np_full (i : Int) gi.dims (onnx_dtype_to_np_dtype gi.elem_type)))))

/-- The default of the `n_output_files` parameter of
`generate_fake_calibration_data`, which is also the value
`MainLatencyServer._compile_model` passes explicitly (line 112 of
`main_server.py`). -/
def default_n_output_files : Nat := 2

/-! ### Calibration configuration (`compiler/config.py`, `main_server.py`) -/

/-- `TIAccuracyLevel`: BASIC = 0, ADVANCED = 1, USER_DEFINED = 9. -/
inductive TIAccuracyLevel
  | BASIC
  | ADVANCED
  | USER_DEFINED
deriving DecidableEq

/-- The `IntEnum` value of a `TIAccuracyLevel`. -/
def TIAccuracyLevel.value : TIAccuracyLevel → Int
  | .BASIC => 0
  | .ADVANCED => 1
  | .USER_DEFINED => 9

/-- `TIQuantizationScaleType`: NON_POWER_OF_2 = 0, POWER_OF_2 = 1,
TFLITE_ASYMMETRIC = 3. -/
inductive TIQuantizationScaleType
  | NON_POWER_OF_2
  | POWER_OF_2
  | TFLITE_ASYMMETRIC
deriving DecidableEq

/-- `TIDataConversion`: DISABLE = 0, INPUT_FORMAT_CONVERSION = 1,
OUTPUT_FORMAT_CONVERSION = 2, INPUT_OUTPUT_FORMAT_CONVERSION = 3. -/
inductive TIDataConversion
  | DISABLE
  | INPUT_FORMAT_CONVERSION
  | OUTPUT_FORMAT_CONVERSION
  | INPUT_OUTPUT_FORMAT_CONVERSION
deriving DecidableEq

/-- `TICalibrationCfg` (lines 140–168 of `compiler/config.py`), with the
dataclass field defaults. -/
structure TICalibrationCfg where
  accuracy_level : TIAccuracyLevel
  quantization_scale_type : TIQuantizationScaleType := .NON_POWER_OF_2
  high_resolution_optimization : Bool := false
  pre_batchnorm_fold : Bool := true
  activation_clipping : Bool := true
  weight_clipping : Bool := true
  bias_calibration : Bool := true
  calibration_iterations : Nat := 5
  add_data_convert_ops : TIDataConversion := .INPUT_OUTPUT_FORMAT_CONVERSION
  channel_wise_quantization : Bool := false
deriving DecidableEq

/-- The client-supplied calibration payload of a compile job: whether the
bytes form a valid zip archive, and the file tree it extracts to (relative
paths, one list of components per file). -/
structure CalibArchive where
  is_zipfile : Bool
  extracted_entries : List (List String)
deriving DecidableEq

/-- The calibration-tier selection in `MainLatencyServer._compile_model`
(lines 107–133 of `main_server.py`): no payload gives
`TICalibrationCfg(accuracy_level=BASIC, calibration_iterations=1)`; a payload
that is not a zip file raises `ValueError("Calibration data must be a zip
file")`; a valid archive gives `TICalibrationCfg(accuracy_level=ADVANCED,
calibration_iterations=10, pre_batchnorm_fold=True, activation_clipping=True,
weight_clipping=True, bias_calibration=True)`.  The result is the
`calibration_cfg` value later passed to `_run_isolated_compilation`
(line 141). -/
def compile_model_calibration_cfg (calibration_data : Option CalibArchive) :
    Except String TICalibrationCfg :=
  match calibration_data with
  | none =>
      .ok { accuracy_level := .BASIC, calibration_iterations := 1 }
  | some cd =>
      if cd.is_zipfile then
        .ok { accuracy_level := .ADVANCED
            , calibration_iterations := 10
            , pre_batchnorm_fold := true
            , activation_clipping := true
            , weight_clipping := true
            , bias_calibration := true }
      else
        .error "Calibration data must be a zip file"

/-! ### Orchestration job step traces (`main_server.py`) -/

/-- The observable steps of one compile job on the orchestration server. -/
inductive JobStep
  | cleanup_working_dir
  | persist_model
  | resolve_calibration
  | isolated_compile
  | package_artifacts
  | return_archive
deriving DecidableEq

/-- The steps `MainLatencyServer._compile_model` performs, in program order
(lines 98–155 of `main_server.py`): persist the incoming model bytes
(`onnx.save`), resolve the calibration dataset and configuration, run the
isolated compilation, package the artifacts directory
(`shutil.make_archive`), and return the archive path.  `_compile_model`
itself never calls `_cleanup_working_dir`. -/
def compile_model_steps : List JobStep :=
  [ .persist_model
  , .resolve_calibration
  , .isolated_compile
  , .package_artifacts
  , .return_archive ]

/-- The steps performed for a job received on the `/compile` route: the
handler registered in `MainLatencyServer.run` (lines 71–78 of
`main_server.py`) calls `self._compile_model(**data)` directly, with no
preceding `_cleanup_working_dir` call. -/
def compile_endpoint_steps : List JobStep := compile_model_steps

/-- The steps performed by `MainLatencyServer.measure_latency`
(lines 157–182 of `main_server.py`): `self._cleanup_working_dir()` first,
then `self._compile_model(model, calibration_data=None)`. -/
def measure_latency_steps : List JobStep :=
  .cleanup_working_dir :: compile_model_steps

/-! ### File globbing (`pathlib.Path.glob` as used by the sources) -/

/-- `pathlib.Path.glob` pattern `*` followed by the literal suffix `ext`
(`"*.onnx"`, `"*.pickle"`), applied to one file name: `*` matches any
(possibly empty) character sequence, a leading dot included —
`pathlib.Path.glob("*.pickle")` does return hidden files such as
`.hidden.pickle` and even `.pickle` — so a name matches exactly when it ends
with the suffix.  The suffix test is phrased on the character list underlying
the strings so that it evaluates inside the kernel. -/
def glob_match_ext (ext : String) (name : String) : Bool :=
  ext.data.isSuffixOf name.data

/-- `model_path.glob("*.onnx")` over a directory embedded as a list of
relative paths: non-recursive, so only entries with a single path component
match. -/
def onnx_path_variants (dir_entries : List (List String)) : List String :=
  dir_entries.filterMap (fun p =>
    match p with
    | [name] => if glob_match_ext ".onnx" name then some name else none
    | _ => none)

/-- `calibration_data_dir.glob("*.pickle")` over a directory embedded as a
list of relative paths: non-recursive, so only entries with a single path
component match. -/
def pickle_files (dir_entries : List (List String)) : List String :=
  dir_entries.filterMap (fun p =>
    match p with
    | [name] => if glob_match_ext ".pickle" name then some name else none
    | _ => none)

/-! ### Device runner model loading (`ti_ort_model.py`) -/

/-- The `model_path` argument of `TIOnnxruntimeModel.__init__`, embedded as
what the constructor observes of the path: whether it is a directory or a
file, and (for a directory) its entries. -/
structure ModelPathInfo where
  is_dir : Bool
  is_file : Bool
  dir_entries : List (List String)
deriving DecidableEq

/-- Outcome of `TIOnnxruntimeModel.__init__`: an NPU+CPU session on the
single onnx file of an artifacts directory, a CPU-only session on a bare
model file, or a raised `ValueError`. -/
inductive InitResult
  | npu (onnx_file : String)
  | cpu
  | error (msg : String)
deriving DecidableEq

/-- `TIOnnxruntimeModel.__init__` (lines 14–51 of `ti_ort_model.py`): for a
directory, glob `*.onnx` and require exactly one match (`if
len(onnx_path_variants) != 1: raise ValueError(...)`), then open that file
with the TIDL + CPU providers; for a file, open it with the CPU provider
only; otherwise raise. -/
def TIOnnxruntimeModel.init (model_path : ModelPathInfo) : InitResult :=
  if model_path.is_dir then
    match onnx_path_variants model_path.dir_entries with
    | [single] => .npu single
    | _ => .error "Artifacts directory must contain only one onnx file."
  else if model_path.is_file then
    .cpu
  else
    .error "model_path must be path to onnx file or artifacts directory"

/-! ### Compiler invocation (`compiler/compiler.py`, `main_server.py`) -/

/-- The `ValueError`s `TICompiler.compile` can raise, plus the failure of the
external in-place shape-inference call.  `no_calibration_data` is the error
raised with message `"cannot find any calibration input ('*.pickle')"`
(line 114 of `compiler/compiler.py`). -/
inductive TIError
  | output_dir_not_dir
  | output_dir_already_exists
  | calibration_dir_not_found
  | no_calibration_data
  | shape_inference_failed
deriving DecidableEq

/-- The observable actions of `TICompiler.compile`, in program order. -/
inductive CompileEvent
  | reset_output_dir
  | create_output_dir
  | set_calibration_frames (n : Nat)
  | shape_inference
  | open_session (calibration_frames : Nat)
  | run_calibration (files : List String)
  | copy_onnx
deriving DecidableEq

/-- Result of one `TICompiler.compile` call: the actions performed before
returning or raising, the `advanced_options:calibration_frames` value put
into the compiler option map (if that point was reached), and the error
raised (if any). -/
structure CompileRun where
  events : List CompileEvent
  calibration_frames : Option Nat
  error : Option TIError
deriving DecidableEq

/-- What one `TICompiler.compile` call observes of the file system and of its
keyword arguments: the state of `output_dir`, the calibration directory and
its entries (relative paths), the `disable_shape_inference` and
`copy_onnx_to_output_dir` flags, and whether the external
`shape_inference.infer_shapes_path` call succeeds. -/
structure CompileInput where
  output_dir_exists : Bool
  output_dir_is_dir : Bool
  force_overwrite : Bool
  calibration_dir_exists : Bool
  calibration_entries : List (List String)
  disable_shape_inference : Bool
  shape_inference_ok : Bool
  copy_onnx_to_output_dir : Bool
deriving DecidableEq

/-- The `output_dir` guard of `TICompiler.compile` (lines 83–94 of
`compiler/compiler.py`) passes without raising. -/
def output_dir_ok (inp : CompileInput) : Bool :=
  !inp.output_dir_exists || (inp.output_dir_is_dir && inp.force_overwrite)

/-- Tail of `TICompiler.compile` from the `ort.InferenceSession` construction
on (lines 124–132 of `compiler/compiler.py`): open the compilation session
with the accumulated option map, run `_run_calibration` — which feeds every
`*.pickle` file of the calibration directory to the session (lines 59–69) —
and finally copy the onnx file into the output directory when requested. -/
def compile_session (inp : CompileInput) (evts : List CompileEvent) (frames : Nat) :
    CompileRun :=
  let evts := evts ++ [.open_session frames, .run_calibration (pickle_files inp.calibration_entries)]
  { events := if inp.copy_onnx_to_output_dir then evts ++ [.copy_onnx] else evts
  , calibration_frames := some frames
  , error := none }

/-- `TICompiler.compile` from the shape-inference step on (lines 118–121 of
`compiler/compiler.py`): unless `disable_shape_inference` is set,
`shape_inference.infer_shapes_path` runs in place on the model file; its
failure propagates as an exception, before the session is constructed. -/
def compile_after_frames (inp : CompileInput) (evts : List CompileEvent) (frames : Nat) :
    CompileRun :=
  if inp.disable_shape_inference then
    compile_session inp evts frames
  else if inp.shape_inference_ok then
    compile_session inp (evts ++ [.shape_inference]) frames
  else
    { events := evts ++ [.shape_inference]
    , calibration_frames := some frames
    , error := some .shape_inference_failed }

/-- `TICompiler.compile` from the calibration-directory checks on
(lines 109–116 of `compiler/compiler.py`): the directory must exist;
`calibration_frames = sum(1 for _ in calibration_data_dir.glob("*.pickle"))`;
zero frames raises the `no_calibration_data` error; otherwise
`compiler_options` is updated with `advanced_options:calibration_frames`. -/
def compile_after_output_dir (inp : CompileInput) (evts : List CompileEvent) :
    CompileRun :=
  if !inp.calibration_dir_exists then
    { events := evts, calibration_frames := none, error := some .calibration_dir_not_found }
  else
    let frames := (pickle_files inp.calibration_entries).length
    if frames = 0 then
      { events := evts, calibration_frames := none, error := some .no_calibration_data }
    else
      compile_after_frames inp (evts ++ [.set_calibration_frames frames]) frames

/-- `TICompiler.compile` (lines 71–132 of `compiler/compiler.py`), starting
with the `output_dir` handling: an existing non-directory raises; an existing
directory is removed and recreated when `force_overwrite` is set and raises
otherwise; a missing directory is created. -/
def TICompiler.compile (inp : CompileInput) : CompileRun :=
  if inp.output_dir_exists then
    if !inp.output_dir_is_dir then
      { events := [], calibration_frames := none, error := some .output_dir_not_dir }
    else if inp.force_overwrite then
      compile_after_output_dir inp [.reset_output_dir, .create_output_dir]
    else
      { events := [], calibration_frames := none, error := some .output_dir_already_exists }
  else
    compile_after_output_dir inp [.create_output_dir]

/-- Whether a compile event is the construction of the compiler session. -/
def CompileEvent.is_open_session : CompileEvent → Bool
  | .open_session _ => true
  | _ => false

/-- The initial segment of a compile-event trace before the first
`open_session` event (the whole trace when no session is ever opened). -/
def pre_session_events (l : List CompileEvent) : List CompileEvent :=
  l.takeWhile (fun e => !e.is_open_session)

/-- The observable actions of `MainLatencyServer._run_isolated_compilation`. -/
inductive IsolatedEvent
  | spawn_worker
  | worker (e : CompileEvent)
deriving DecidableEq

/-- `MainLatencyServer._run_isolated_compilation` (lines 94–96 of
`main_server.py`): open a `multiprocessing.Pool` of size 1 — spawning the
worker process — and run `_run_compilation`, i.e. `TICompiler(...).compile`,
inside that child process.  Everything `TICompiler.compile` does, the
in-place shape inference included, therefore happens inside the worker. -/
def run_isolated_compilation (inp : CompileInput) :
    List IsolatedEvent × Option TIError :=
  let r := TICompiler.compile inp
  (IsolatedEvent.spawn_worker :: r.events.map IsolatedEvent.worker, r.error)

/-! ### Concrete sample inputs used by counterexamples and witnesses -/

/-- A single declared graph input of shape `[2, 3]` with ONNX element-type
code 1 (float). -/
def sample_tensor_info : TensorInfo :=
  ⟨"input", [2, 3], 1⟩

/-- A raw counter mapping holding only the run window: a run of
`2 * 10 ^ 6` nanoseconds, so `total_ms = 2`. -/
def sample_raw_stats : RawStats :=
  ⟨[("ts:run_start", 0), ("ts:run_end", 2000000)]⟩

/-- A compile input with one top-level calibration pickle, shape inference
enabled and failing. -/
def shape_failure_input : CompileInput :=
  { output_dir_exists := false
  , output_dir_is_dir := false
  , force_overwrite := true
  , calibration_dir_exists := true
  , calibration_entries := [["calibration_1.pickle"]]
  , disable_shape_inference := false
  , shape_inference_ok := false
  , copy_onnx_to_output_dir := true }

/-- A compile input whose calibration directory is non-empty but holds no
top-level `*.pickle` file: one pickle inside a subdirectory and one
non-pickle file at top level. -/
def no_toplevel_pickle_input : CompileInput :=
  { output_dir_exists := false
  , output_dir_is_dir := false
  , force_overwrite := true
  , calibration_dir_exists := true
  , calibration_entries := [["nested", "data_1.pickle"], ["readme.txt"]]
  , disable_shape_inference := false
  , shape_inference_ok := true
  , copy_onnx_to_output_dir := true }

/-- A compile input with two top-level calibration pickles — one of them a
hidden dotfile, which `pathlib.Path.glob("*.pickle")` also matches — and
successful shape inference. -/
def two_pickle_input : CompileInput :=
  { output_dir_exists := false
  , output_dir_is_dir := false
  , force_overwrite := true
  , calibration_dir_exists := true
  , calibration_entries := [["data_1.pickle"], [".data_2.pickle"], ["notes.txt"]]
  , disable_shape_inference := false
  , shape_inference_ok := true
  , copy_onnx_to_output_dir := true }

/-! ## Theorems -/

/-- The `npu_exec` accumulator after the per-subgraph loop equals its initial
value plus the sum of the processing windows of the traversed ids. -/
theorem foldl_npu_exec (rs : RawStats) (ids : List String) :
    ∀ acc : NPUAcc, (ids.foldl (npu_step rs) acc).npu_exec
      = acc.npu_exec + (ids.map (proc_window rs)).sum := by
  induction ids with
  | nil => intro acc; simp
  | cons x xs ih =>
    intro acc
    rw [List.foldl_cons, ih, List.map_cons, List.sum_cons]
    simp only [npu_step, proc_window]
    ring

/-- The `npu_copy_in` accumulator after the per-subgraph loop equals its
initial value plus the sum of the input-copy windows of the traversed ids. -/
theorem foldl_npu_copy_in (rs : RawStats) (ids : List String) :
    ∀ acc : NPUAcc, (ids.foldl (npu_step rs) acc).npu_copy_in
      = acc.npu_copy_in + (ids.map (copy_in_window rs)).sum := by
  induction ids with
  | nil => intro acc; simp
  | cons x xs ih =>
    intro acc
    rw [List.foldl_cons, ih, List.map_cons, List.sum_cons]
    simp only [npu_step, copy_in_window]
    ring

/-- The `npu_copy_out` accumulator after the per-subgraph loop equals its
initial value plus the sum of the output-copy windows of the traversed ids. -/
theorem foldl_npu_copy_out (rs : RawStats) (ids : List String) :
    ∀ acc : NPUAcc, (ids.foldl (npu_step rs) acc).npu_copy_out
      = acc.npu_copy_out + (ids.map (copy_out_window rs)).sum := by
  induction ids with
  | nil => intro acc; simp
  | cons x xs ih =>
    intro acc
    rw [List.foldl_cons, ih, List.map_cons, List.sum_cons]
    simp only [npu_step, copy_out_window]
    ring

/-- C1: for every raw counter mapping, the `LatencyReport` produced by
`collect_ti_stats` satisfies
`total_execution_ms = NPU_execution_ms + CPU_execution_ms` exactly, where
`total_execution_ms = total_ms - NPU_copy_input_ms - NPU_copy_output_ms` and
`CPU_execution_ms` is derived (step 6), not independently measured. -/
theorem collect_ti_stats_total_execution_decomposition (rs : RawStats) :
    (collect_ti_stats rs).total_execution_ms
      = (collect_ti_stats rs).NPU_execution_ms + (collect_ti_stats rs).CPU_execution_ms
    ∧ (collect_ti_stats rs).total_execution_ms
      = (collect_ti_stats rs).total_ms - (collect_ti_stats rs).NPU_copy_input_ms
          - (collect_ti_stats rs).NPU_copy_output_ms
    ∧ (collect_ti_stats rs).CPU_execution_ms
      = (collect_ti_stats rs).total_execution_ms - (collect_ti_stats rs).NPU_execution_ms := by
  have hcpu : (collect_ti_stats rs).CPU_execution_ms
      = (collect_ti_stats rs).total_execution_ms - (collect_ti_stats rs).NPU_execution_ms := rfl
  refine ⟨?_, rfl, hcpu⟩
  rw [hcpu]
  ring

/-- C2: the aggregation discovers the subgraph ids dynamically from which
counter keys exist (exactly the keys ending in `"proc_start"`, stripped of
the fixed head and tail), and each of `NPU_execution_ms`,
`NPU_copy_input_ms`, `NPU_copy_output_ms` equals the sum of the
corresponding end − start window over all discovered ids, divided by
`10 ^ 6`. -/
theorem collect_ti_stats_multi_subgraph_sums (rs : RawStats) :
    (∀ s, s ∈ subgraph_ids rs ↔
      ∃ kv, kv ∈ rs.entries ∧ kv.1.endsWith "proc_start" = true
        ∧ (kv.1.drop 12).dropRight 11 = s)
    ∧ (collect_ti_stats rs).NPU_execution_ms
        = ((subgraph_ids rs).map (proc_window rs)).sum / 10 ^ 6
    ∧ (collect_ti_stats rs).NPU_copy_input_ms
        = ((subgraph_ids rs).map (copy_in_window rs)).sum / 10 ^ 6
    ∧ (collect_ti_stats rs).NPU_copy_output_ms
        = ((subgraph_ids rs).map (copy_out_window rs)).sum / 10 ^ 6 := by
  refine ⟨?_, ?_, ?_, ?_⟩
  · intro s
    simp only [subgraph_ids, List.mem_filterMap]
    constructor
    · rintro ⟨kv, hkv, h⟩
      by_cases he : kv.1.endsWith "proc_start"
      · rw [if_pos he] at h
        exact ⟨kv, hkv, he, Option.some.inj h⟩
      · rw [if_neg he] at h
        exact absurd h (Option.noConfusion)
    · rintro ⟨kv, hkv, he, hs⟩
      exact ⟨kv, hkv, by rw [if_pos he, hs]⟩
  · have h : (collect_ti_stats rs).NPU_execution_ms
        = ((subgraph_ids rs).foldl (npu_step rs) ⟨0, 0, 0⟩).npu_exec / 10 ^ 6 := rfl
    rw [h, foldl_npu_exec]
    norm_num
  · have h : (collect_ti_stats rs).NPU_copy_input_ms
        = ((subgraph_ids rs).foldl (npu_step rs) ⟨0, 0, 0⟩).npu_copy_in / 10 ^ 6 := rfl
    rw [h, foldl_npu_copy_in]
    norm_num
  · have h : (collect_ti_stats rs).NPU_copy_output_ms
        = ((subgraph_ids rs).foldl (npu_step rs) ⟨0, 0, 0⟩).npu_copy_out / 10 ^ 6 := rfl
    rw [h, foldl_npu_copy_out]
    norm_num

/-- C3: the transport-overhead entry of the measurement report equals
`latency - total_ms`, and it is not clamped: whenever the wall-clock mean is
smaller than the accelerator-reported total, the overhead is negative. -/
theorem measure_latency_overhead_no_clamp (rs : RawStats) (latency : ℚ) :
    (measure_latency_report rs latency).ORT_overhead_ms
      = latency - (collect_ti_stats rs).total_ms
    ∧ ((measure_latency_report rs latency).latency
          < (measure_latency_report rs latency).stats.total_ms →
        (measure_latency_report rs latency).ORT_overhead_ms < 0) := by
  refine ⟨rfl, fun h => ?_⟩
  have h0 : (measure_latency_report rs latency).ORT_overhead_ms
      = (measure_latency_report rs latency).latency
        - (measure_latency_report rs latency).stats.total_ms := rfl
  rw [h0]
  exact sub_neg.mpr h

/-- Witness for C3 at a concrete raw counter mapping: run window of
`2 * 10 ^ 6` nanoseconds (`total_ms = 2`) and wall-clock mean `1`; the
overhead is reported negative. -/
theorem measure_latency_overhead_no_clamp_witness :
    (measure_latency_report sample_raw_stats 1).latency
      < (measure_latency_report sample_raw_stats 1).stats.total_ms
    ∧ (measure_latency_report sample_raw_stats 1).ORT_overhead_ms < 0 := by
  have e1 : (measure_latency_report sample_raw_stats 1).stats.total_ms
      = ((2000000 : ℚ) - 0) / 10 ^ 6 := rfl
  have e2 : (measure_latency_report sample_raw_stats 1).latency = 1 := rfl
  have h : (measure_latency_report sample_raw_stats 1).latency
      < (measure_latency_report sample_raw_stats 1).stats.total_ms := by
    rw [e1, e2]
    norm_num
  exact ⟨h, (measure_latency_overhead_no_clamp sample_raw_stats 1).2 h⟩

/-- C4: for every model and every requested sample count `n`, the synthetic
calibration generator writes exactly `n` files, the default count is 2, and
the file at position `i` (sample index `i + 1`) maps every declared input
tensor to an array with the declared shape, the converted declared element
type, and every element equal to the sample index `i + 1`. -/
theorem generate_fake_calibration_data_spec (onnx_dtype_to_np_dtype : Nat → Nat)
    (graph_inputs : List TensorInfo) (n i : Nat) (h : i < n) :
    (generate_fake_calibration_data onnx_dtype_to_np_dtype graph_inputs n).length = n
    ∧ default_n_output_files = 2
    ∧ (generate_fake_calibration_data onnx_dtype_to_np_dtype graph_inputs n)[i]?
        = some ("fake_calibration_data_" ++ toString (i + 1) ++ ".pickle",
            graph_inputs.map (fun gi =>
              (gi.name,
                { shape := gi.dims
                , dtype := onnx_dtype_to_np_dtype gi.elem_type
                , data := List.replicate gi.dims.prod ((i + 1 : Nat) : Int) }))) := by
  refine ⟨?_, rfl, ?_⟩
  · simp [generate_fake_calibration_data]
  · rw [generate_fake_calibration_data, List.getElem?_map, List.getElem?_range' 1 1 h]
    simp [np_full, Nat.add_comm 1 i]

/-- Witness for C4: one declared input of shape `[2, 3]`, the default count
of two samples, sample position 0 (sample index 1). -/
theorem generate_fake_calibration_data_spec_witness :
    (0 : Nat) < 2
    ∧ ((generate_fake_calibration_data (fun t => t) [sample_tensor_info] 2).length = 2
        ∧ default_n_output_files = 2
        ∧ (generate_fake_calibration_data (fun t => t) [sample_tensor_info] 2)[0]?
            = some ("fake_calibration_data_" ++ toString (0 + 1) ++ ".pickle",
                [sample_tensor_info].map (fun gi =>
                  (gi.name,
                    { shape := gi.dims
                    , dtype := (fun t => t) gi.elem_type
                    , data := List.replicate gi.dims.prod ((0 + 1 : Nat) : Int) })))) :=
  ⟨by decide, generate_fake_calibration_data_spec (fun t => t) [sample_tensor_info] 2 0 (by decide)⟩

/-- C5: a job with no calibration payload gets a calibration configuration
with accuracy tier BASIC and iteration count 1; a job with a valid (zip)
calibration archive gets tier ADVANCED, iteration count 10, and
`pre_batchnorm_fold`, `activation_clipping`, `weight_clipping`,
`bias_calibration` all true. -/
theorem compile_model_calibration_tier_selection (cd : CalibArchive)
    (h : cd.is_zipfile = true) :
    (∃ cfg, compile_model_calibration_cfg none = .ok cfg
      ∧ cfg.accuracy_level = .BASIC
      ∧ cfg.calibration_iterations = 1)
    ∧ (∃ cfg, compile_model_calibration_cfg (some cd) = .ok cfg
      ∧ cfg.accuracy_level = .ADVANCED
      ∧ cfg.calibration_iterations = 10
      ∧ cfg.pre_batchnorm_fold = true
      ∧ cfg.activation_clipping = true
      ∧ cfg.weight_clipping = true
      ∧ cfg.bias_calibration = true) := by
  constructor
  · exact ⟨{ accuracy_level := .BASIC, calibration_iterations := 1 }, rfl, rfl, rfl⟩
  · refine ⟨{ accuracy_level := .ADVANCED
            , calibration_iterations := 10
            , pre_batchnorm_fold := true
            , activation_clipping := true
            , weight_clipping := true
            , bias_calibration := true }, ?_, rfl, rfl, rfl, rfl, rfl, rfl⟩
    simp [compile_model_calibration_cfg, h]

/-- Witness for C5 at a concrete valid calibration archive. -/
theorem compile_model_calibration_tier_selection_witness :
    (CalibArchive.mk true []).is_zipfile = true
    ∧ ((∃ cfg, compile_model_calibration_cfg none = .ok cfg
        ∧ cfg.accuracy_level = .BASIC
        ∧ cfg.calibration_iterations = 1)
      ∧ (∃ cfg, compile_model_calibration_cfg (some (CalibArchive.mk true [])) = .ok cfg
        ∧ cfg.accuracy_level = .ADVANCED
        ∧ cfg.calibration_iterations = 10
        ∧ cfg.pre_batchnorm_fold = true
        ∧ cfg.activation_clipping = true
        ∧ cfg.weight_clipping = true
        ∧ cfg.bias_calibration = true)) :=
  ⟨rfl, compile_model_calibration_tier_selection (CalibArchive.mk true []) rfl⟩

/-- Counterexample to C6: the `/compile` route of the orchestration server is
a compile job, and its step trace contains no directory reset at all — in
particular its first step is persisting the model bytes, not wiping the
working tree — so a file from a prior job can survive into it. -/
theorem compile_endpoint_no_directory_reset :
    JobStep.cleanup_working_dir ∉ compile_endpoint_steps
    ∧ compile_endpoint_steps.head? = some JobStep.persist_model := by
  decide

/-- C6 (amended): a job entered through `measure_latency` performs the steps
strictly in the order directory reset, model persisting, calibration
resolution, isolated compile, package, return; but a job received on the
`/compile` route runs `_compile_model` with no directory reset step. -/
theorem job_step_order :
    measure_latency_steps
      = [ JobStep.cleanup_working_dir
        , JobStep.persist_model
        , JobStep.resolve_calibration
        , JobStep.isolated_compile
        , JobStep.package_artifacts
        , JobStep.return_archive ]
    ∧ compile_endpoint_steps
      = [ JobStep.persist_model
        , JobStep.resolve_calibration
        , JobStep.isolated_compile
        , JobStep.package_artifacts
        , JobStep.return_archive ]
    ∧ JobStep.cleanup_working_dir ∉ compile_endpoint_steps := by
  decide

/-- The compiler session step returns no error. -/
theorem compile_session_error (inp : CompileInput) (evts : List CompileEvent) (frames : Nat) :
    (compile_session inp evts frames).error = none := rfl

/-- The compiler session step keeps the forwarded `calibration_frames`. -/
theorem compile_session_frames (inp : CompileInput) (evts : List CompileEvent) (frames : Nat) :
    (compile_session inp evts frames).calibration_frames = some frames := rfl

/-- Membership in the event trace of the session step. -/
theorem compile_session_mem_events (inp : CompileInput) (evts : List CompileEvent)
    (frames : Nat) (e : CompileEvent) :
    e ∈ (compile_session inp evts frames).events ↔
      e ∈ evts ∨ e = CompileEvent.open_session frames
        ∨ e = CompileEvent.run_calibration (pickle_files inp.calibration_entries)
        ∨ (inp.copy_onnx_to_output_dir = true ∧ e = CompileEvent.copy_onnx) := by
  unfold compile_session
  by_cases hc : inp.copy_onnx_to_output_dir <;> simp [hc]

/-- From the frames step on, the forwarded `calibration_frames` value is
fixed in every branch. -/
theorem compile_after_frames_calibration_frames (inp : CompileInput)
    (evts : List CompileEvent) (frames : Nat) :
    (compile_after_frames inp evts frames).calibration_frames = some frames := by
  unfold compile_after_frames
  split
  · rfl
  · split <;> rfl

/-- From the frames step on, the `no_calibration_data` error can no longer
occur. -/
theorem compile_after_frames_error_ne_nocal (inp : CompileInput)
    (evts : List CompileEvent) (frames : Nat) :
    (compile_after_frames inp evts frames).error ≠ some TIError.no_calibration_data := by
  unfold compile_after_frames
  split
  · simp [compile_session_error]
  · split
    · simp [compile_session_error]
    · simp

/-- Any `open_session` event after the frames step either was already in the
accumulated trace or carries exactly the forwarded frame count. -/
theorem compile_after_frames_open_session (inp : CompileInput)
    (evts : List CompileEvent) (frames n : Nat) :
    CompileEvent.open_session n ∈ (compile_after_frames inp evts frames).events →
      CompileEvent.open_session n ∈ evts ∨ n = frames := by
  unfold compile_after_frames
  split
  · intro h
    rw [compile_session_mem_events] at h
    simp at h
    tauto
  · split
    · intro h
      rw [compile_session_mem_events] at h
      simp at h
      tauto
    · intro h
      simp at h
      exact Or.inl h

/-- Any `run_calibration` event after the frames step either was already in
the accumulated trace or feeds exactly the globbed `*.pickle` files. -/
theorem compile_after_frames_run_calibration (inp : CompileInput)
    (evts : List CompileEvent) (frames : Nat) (l : List String) :
    CompileEvent.run_calibration l ∈ (compile_after_frames inp evts frames).events →
      CompileEvent.run_calibration l ∈ evts ∨ l = pickle_files inp.calibration_entries := by
  unfold compile_after_frames
  split
  · intro h
    rw [compile_session_mem_events] at h
    simp at h
    tauto
  · split
    · intro h
      rw [compile_session_mem_events] at h
      simp at h
      tauto
    · intro h
      simp at h
      exact Or.inl h

/-- Unfolding of `TICompiler.compile` when the `output_dir` guard passes, the
calibration directory exists and at least one `*.pickle` sample is found. -/
theorem compile_unfold_pos (inp : CompileInput)
    (hout : output_dir_ok inp = true) (hcal : inp.calibration_dir_exists = true)
    (hpos : (pickle_files inp.calibration_entries).length ≠ 0) :
    TICompiler.compile inp
      = compile_after_frames inp
          ((if inp.output_dir_exists
              then [CompileEvent.reset_output_dir, CompileEvent.create_output_dir]
              else [CompileEvent.create_output_dir])
            ++ [CompileEvent.set_calibration_frames (pickle_files inp.calibration_entries).length])
          (pickle_files inp.calibration_entries).length := by
  unfold TICompiler.compile compile_after_output_dir
  by_cases h1 : inp.output_dir_exists
  · have h2 : inp.output_dir_is_dir = true ∧ inp.force_overwrite = true := by
      simpa [output_dir_ok, h1] using hout
    simp [h1, h2.1, h2.2, hcal, hpos]
  · simp [h1, hcal, hpos]

/-- Unfolding of `TICompiler.compile` when the `output_dir` guard passes, the
calibration directory exists, and no `*.pickle` sample is found: the
`no_calibration_data` error is raised right after the count. -/
theorem compile_unfold_zero (inp : CompileInput)
    (hout : output_dir_ok inp = true) (hcal : inp.calibration_dir_exists = true)
    (hzero : (pickle_files inp.calibration_entries).length = 0) :
    TICompiler.compile inp
      = { events := if inp.output_dir_exists
            then [CompileEvent.reset_output_dir, CompileEvent.create_output_dir]
            else [CompileEvent.create_output_dir]
        , calibration_frames := none
        , error := some TIError.no_calibration_data } := by
  unfold TICompiler.compile compile_after_output_dir
  by_cases h1 : inp.output_dir_exists
  · have h2 : inp.output_dir_is_dir = true ∧ inp.force_overwrite = true := by
      simpa [output_dir_ok, h1] using hout
    simp [h1, h2.1, h2.2, hcal, hzero]
  · simp [h1, hcal, hzero]

/-- C7: with the output-directory guard passed and the calibration directory
present, zero `*.pickle` samples make `TICompiler.compile` fail with the
`no_calibration_data` error before the compiler session is opened, while at
least one sample makes that error unreachable and forwards the sample count
to the compiler as `advanced_options:calibration_frames` (any session that
opens does so with exactly that count). -/
theorem compile_no_calibration_data_gate (inp : CompileInput)
    (hout : output_dir_ok inp = true) (hcal : inp.calibration_dir_exists = true) :
    ((pickle_files inp.calibration_entries).length = 0 →
        (TICompiler.compile inp).error = some TIError.no_calibration_data
        ∧ ∀ n, CompileEvent.open_session n ∉ (TICompiler.compile inp).events)
    ∧ (0 < (pickle_files inp.calibration_entries).length →
        (TICompiler.compile inp).error ≠ some TIError.no_calibration_data
        ∧ (TICompiler.compile inp).calibration_frames
            = some (pickle_files inp.calibration_entries).length
        ∧ ∀ n, CompileEvent.open_session n ∈ (TICompiler.compile inp).events →
            n = (pickle_files inp.calibration_entries).length) := by
  constructor
  · intro h0
    rw [compile_unfold_zero inp hout hcal h0]
    refine ⟨rfl, fun n => ?_⟩
    by_cases h1 : inp.output_dir_exists <;> simp [h1]
  · intro hpos
    have hne : (pickle_files inp.calibration_entries).length ≠ 0 :=
      Nat.pos_iff_ne_zero.mp hpos
    rw [compile_unfold_pos inp hout hcal hne]
    refine ⟨compile_after_frames_error_ne_nocal _ _ _,
      compile_after_frames_calibration_frames _ _ _, fun n hmem => ?_⟩
    rcases compile_after_frames_open_session _ _ _ _ hmem with h | h
    · exfalso
      revert h
      by_cases h1 : inp.output_dir_exists <;> simp [h1]
    · exact h

/-- Witness for C7 at a calibration directory holding two top-level pickle
samples. -/
theorem compile_no_calibration_data_gate_witness :
    output_dir_ok two_pickle_input = true
    ∧ two_pickle_input.calibration_dir_exists = true
    ∧ (0 < (pickle_files two_pickle_input.calibration_entries).length →
        (TICompiler.compile two_pickle_input).error ≠ some TIError.no_calibration_data
        ∧ (TICompiler.compile two_pickle_input).calibration_frames
            = some (pickle_files two_pickle_input.calibration_entries).length
        ∧ ∀ n, CompileEvent.open_session n ∈ (TICompiler.compile two_pickle_input).events →
            n = (pickle_files two_pickle_input.calibration_entries).length) :=
  ⟨rfl, rfl, (compile_no_calibration_data_gate two_pickle_input rfl rfl).2⟩

/-- C8: loading from a directory fails with the ambiguous-artifact
`ValueError` whenever the directory holds zero or several `*.onnx` files,
succeeds on the unique model file when exactly one is present (never silently
picking one of several), and loading from a single model file gives the
CPU-only baseline. -/
theorem ti_model_init_ambiguous_artifact (p : ModelPathInfo) :
    (p.is_dir = true →
      (((onnx_path_variants p.dir_entries).length ≠ 1 →
          TIOnnxruntimeModel.init p
            = .error "Artifacts directory must contain only one onnx file.")
        ∧ ∀ f, onnx_path_variants p.dir_entries = [f] →
            TIOnnxruntimeModel.init p = .npu f))
    ∧ (p.is_dir = false → p.is_file = true → TIOnnxruntimeModel.init p = .cpu) := by
  constructor
  · intro hd
    constructor
    · intro hlen
      unfold TIOnnxruntimeModel.init
      rcases hv : onnx_path_variants p.dir_entries with _ | ⟨f, _ | ⟨g, t⟩⟩
      · simp [hd, hv]
      · exfalso
        rw [hv] at hlen
        simp at hlen
      · simp [hd, hv]
    · intro f hf
      unfold TIOnnxruntimeModel.init
      simp [hd, hf]
  · intro hd hf
    unfold TIOnnxruntimeModel.init
    simp [hd, hf]

/-- Witness for C8: a directory with two onnx files — one of them hidden,
since `pathlib.Path.glob("*.onnx")` also matches dotfiles — is rejected as
ambiguous, never silently resolved to the visible one; a bare file path gives
the CPU-only baseline. -/
theorem ti_model_init_ambiguous_artifact_witness :
    (ModelPathInfo.mk true false [["model.onnx"], [".other.onnx"]]).is_dir = true
    ∧ (onnx_path_variants [["model.onnx"], [".other.onnx"]]).length ≠ 1
    ∧ TIOnnxruntimeModel.init (ModelPathInfo.mk true false [["model.onnx"], [".other.onnx"]])
        = .error "Artifacts directory must contain only one onnx file."
    ∧ TIOnnxruntimeModel.init (ModelPathInfo.mk false true []) = .cpu := by
  refine ⟨rfl, by decide, ?_, ?_⟩
  · exact ((ti_model_init_ambiguous_artifact
      (ModelPathInfo.mk true false [["model.onnx"], [".other.onnx"]])).1 rfl).1 (by decide)
  · exact (ti_model_init_ambiguous_artifact (ModelPathInfo.mk false true [])).2 rfl rfl

/-- When shape inference is enabled and the external call fails, the frames
step ends in the shape-inference failure with no session opened. -/
theorem compile_after_frames_shape_fail (inp : CompileInput)
    (evts : List CompileEvent) (frames : Nat)
    (hdis : inp.disable_shape_inference = false)
    (hfail : inp.shape_inference_ok = false) :
    compile_after_frames inp evts frames
      = { events := evts ++ [CompileEvent.shape_inference]
        , calibration_frames := some frames
        , error := some TIError.shape_inference_failed } := by
  unfold compile_after_frames
  simp [hdis, hfail]

/-- Counterexample to C9: at a compile input with one calibration sample,
shape inference enabled and the external shape-inference call failing, the
isolated-compilation trace starts by spawning the worker process and only
then, inside the worker, runs shape inference — which fails after the worker
was created, not before. -/
theorem shape_inference_after_spawn_counterexample :
    (run_isolated_compilation shape_failure_input).1.head? = some IsolatedEvent.spawn_worker
    ∧ IsolatedEvent.worker CompileEvent.shape_inference
        ∈ (run_isolated_compilation shape_failure_input).1
    ∧ (run_isolated_compilation shape_failure_input).2
        = some TIError.shape_inference_failed := by
  decide

/-- C9 (amended): unless explicitly disabled, shape inference runs in-place
inside the isolated worker — after the worker process is spawned — and before
the compiler session is opened; a shape-inference failure aborts the
compilation before the session is opened (but not before the worker is
created). -/
theorem shape_inference_in_worker_before_session (inp : CompileInput)
    (hout : output_dir_ok inp = true) (hcal : inp.calibration_dir_exists = true)
    (hpos : (pickle_files inp.calibration_entries).length ≠ 0)
    (hdis : inp.disable_shape_inference = false) :
    (run_isolated_compilation inp).1.head? = some IsolatedEvent.spawn_worker
    ∧ CompileEvent.shape_inference ∈ pre_session_events (TICompiler.compile inp).events
    ∧ (inp.shape_inference_ok = false →
        (TICompiler.compile inp).error = some TIError.shape_inference_failed
        ∧ ∀ n, CompileEvent.open_session n ∉ (TICompiler.compile inp).events) := by
  refine ⟨rfl, ?_, ?_⟩
  · rw [compile_unfold_pos inp hout hcal hpos]
    by_cases h1 : inp.output_dir_exists <;>
      by_cases hok : inp.shape_inference_ok <;>
        by_cases hc : inp.copy_onnx_to_output_dir <;>
          simp [h1, hok, hc, hdis, compile_after_frames, compile_session,
            pre_session_events, List.takeWhile_cons, CompileEvent.is_open_session]
  · intro hfail
    rw [compile_unfold_pos inp hout hcal hpos,
      compile_after_frames_shape_fail inp _ _ hdis hfail]
    refine ⟨rfl, fun n => ?_⟩
    by_cases h1 : inp.output_dir_exists <;> simp [h1]

/-- Witness for the amended C9 at the concrete one-sample input with failing
shape inference. -/
theorem shape_inference_in_worker_before_session_witness :
    output_dir_ok shape_failure_input = true
    ∧ shape_failure_input.calibration_dir_exists = true
    ∧ (pickle_files shape_failure_input.calibration_entries).length ≠ 0
    ∧ shape_failure_input.disable_shape_inference = false
    ∧ ((run_isolated_compilation shape_failure_input).1.head?
          = some IsolatedEvent.spawn_worker
      ∧ CompileEvent.shape_inference
          ∈ pre_session_events (TICompiler.compile shape_failure_input).events
      ∧ (shape_failure_input.shape_inference_ok = false →
          (TICompiler.compile shape_failure_input).error
              = some TIError.shape_inference_failed
          ∧ ∀ n, CompileEvent.open_session n
              ∉ (TICompiler.compile shape_failure_input).events)) :=
  ⟨rfl, rfl, by decide, rfl,
    shape_inference_in_worker_before_session shape_failure_input rfl rfl (by decide) rfl⟩

/-- C10: the compiler recognizes as calibration samples exactly the files
whose name matches `*.pickle` at the top level of the calibration directory;
with only non-matching files (even in a non-empty directory) the
zero-samples error fires, and any list of files fed to the compiler session
during calibration is exactly the list of matching files — a non-matching
file is never fed. -/
theorem compile_recognizes_only_toplevel_pickles (inp : CompileInput)
    (hout : output_dir_ok inp = true) (hcal : inp.calibration_dir_exists = true) :
    (∀ name, name ∈ pickle_files inp.calibration_entries ↔
        [name] ∈ inp.calibration_entries ∧ glob_match_ext ".pickle" name = true)
    ∧ (pickle_files inp.calibration_entries = [] →
        (TICompiler.compile inp).error = some TIError.no_calibration_data)
    ∧ (∀ l, CompileEvent.run_calibration l ∈ (TICompiler.compile inp).events →
        l = pickle_files inp.calibration_entries) := by
  refine ⟨?_, ?_, ?_⟩
  · intro name
    simp only [pickle_files, List.mem_filterMap]
    constructor
    · rintro ⟨p, hp, hf⟩
      rcases p with _ | ⟨a, _ | ⟨b, t⟩⟩
      · exact Option.noConfusion hf
      · have hf2 : (if glob_match_ext ".pickle" a = true then some a else none)
            = some name := hf
        by_cases hg : glob_match_ext ".pickle" a = true
        · rw [if_pos hg] at hf2
          cases Option.some.inj hf2
          exact ⟨hp, hg⟩
        · rw [if_neg hg] at hf2
          exact Option.noConfusion hf2
      · exact Option.noConfusion hf
    · rintro ⟨hmem, hglob⟩
      exact ⟨[name], hmem, by simp [hglob]⟩
  · intro h0
    rw [compile_unfold_zero inp hout hcal (by rw [h0]; rfl)]
  · intro l hmem
    by_cases h0 : (pickle_files inp.calibration_entries).length = 0
    · rw [compile_unfold_zero inp hout hcal h0] at hmem
      exfalso
      revert hmem
      by_cases h1 : inp.output_dir_exists <;> simp [h1]
    · rw [compile_unfold_pos inp hout hcal h0] at hmem
      rcases compile_after_frames_run_calibration _ _ _ _ hmem with h | h
      · exfalso
        revert h
        by_cases h1 : inp.output_dir_exists <;> simp [h1]
      · exact h

/-- Witness for C10 at a non-empty calibration directory holding no
top-level `*.pickle` file: the zero-samples error fires. -/
theorem compile_recognizes_only_toplevel_pickles_witness :
    output_dir_ok no_toplevel_pickle_input = true
    ∧ no_toplevel_pickle_input.calibration_dir_exists = true
    ∧ no_toplevel_pickle_input.calibration_entries ≠ []
    ∧ pickle_files no_toplevel_pickle_input.calibration_entries = []
    ∧ (TICompiler.compile no_toplevel_pickle_input).error
        = some TIError.no_calibration_data :=
  ⟨rfl, rfl, by decide, by decide,
    (compile_recognizes_only_toplevel_pickles no_toplevel_pickle_input rfl rfl).2.1 (by decide)⟩

end TexasInstrumentsLatencyServer
